import Mathlib

/-!
Verification of the reconciliation-agent repository.

Shallow embedding of the Python sources into Lean 4:
* numeric amounts (Python floats) are modelled as rationals (`ℚ`);
* `Optional[float]` / nullable columns become `Option ℚ`;
* calendar dates become integers counting days from a Monday epoch, so that
  `d % 7` is the Python `date.weekday()` (0 = Monday, …, 6 = Sunday);
* configuration values are taken from `production_config.py` defaults
  (`fx_markup_tolerance_pct = 2.5`, `fx_inr_tolerance = 100`,
  `amount_match_tolerance_inr = 10`, `date_window_days = 2`,
  SLA working days = 3).
-/

namespace Recon

/-! ## Shared numeric helpers -/

/-- Python `round(x, k)` rounds half to even (banker's rounding); this is the
integer-valued round-half-even used by `round(x * 100) / 100` below. -/
def roundHalfEven (x : ℚ) : ℤ :=
  let n := ⌊x⌋
  if x - n < 1/2 then n
  else if 1/2 < x - n then n + 1
  else if n % 2 = 0 then n else n + 1

/-- Python `round(x, 2)`. -/
def round2 (x : ℚ) : ℚ := ((roundHalfEven (x * 100) : ℤ) : ℚ) / 100

/-- Python truthiness of an `Optional[float]`: `not x` is true for `None`
and for `0.0`. -/
def qFalsy : Option ℚ → Bool
  | none => true
  | some x => x == 0

/-! ## markup_analyzer.py -/

/-- Threshold `SETTINGS["thresholds"]["fx_markup_tolerance_pct"]` (default 2.5). -/
def FX_MARKUP_TOL : ℚ := 5/2

/-- Threshold `SETTINGS["thresholds"]["fx_inr_tolerance"]` (default 100). -/
def FX_INR_TOL : ℚ := 100

/-- Result record of `markup_analyzer.analyze_markup`. -/
structure MarkupResult where
  is_flagged : Bool
  markup_pct : Option ℚ
  inr_diff : Option ℚ
  status : String
  reason : String
deriving DecidableEq

/-- The f-string `f"Markup {markup_pct}% exceeds {FX_MARKUP_TOL}%"`. -/
def markupReason (mp : ℚ) : String :=
  "Markup " ++ toString mp ++ "% exceeds " ++ toString FX_MARKUP_TOL ++ "%"

/-- The f-string `f"INR difference ₹{abs(inr_diff)} exceeds ₹{FX_INR_TOL}"`. -/
def inrReason (d : ℚ) : String :=
  "INR difference ₹" ++ toString d ++ " exceeds ₹" ++ toString FX_INR_TOL

/-- Python `"; ".join(reasons)`. -/
def joinSemicolon : List String → String
  | [] => ""
  | [a] => a
  | a :: b :: t => a ++ "; " ++ joinSemicolon (b :: t)

/-- `markup_analyzer.analyze_markup`.  The `fx_context` dict argument is
collapsed to the boolean `fx_is_dcc`, the truth value of
`fx_context and fx_context.get("is_dcc")`. -/
def analyze_markup (foreign_amount charged_inr interbank_rate : Option ℚ)
    (fx_is_dcc : Bool) : MarkupResult :=
  if qFalsy foreign_amount || qFalsy charged_inr || qFalsy interbank_rate then
    ⟨false, none, none, "SKIPPED", "Missing core values for analysis"⟩
  else if fx_is_dcc then
    ⟨false, none, none, "BYPASS", "DCC transaction detected, markup check not applicable"⟩
  else
    let a := foreign_amount.getD 0
    let c := charged_inr.getD 0
    let r := interbank_rate.getD 0
    let inr_diff := round2 (c - a * r)
    let markup_pct := round2 (((c / a - r) / r) * 100)
    if FX_MARKUP_TOL < markup_pct ∨ FX_INR_TOL < |inr_diff| then
      ⟨true, some markup_pct, some inr_diff, "FLAGGED",
        joinSemicolon ((if FX_MARKUP_TOL < markup_pct then [markupReason markup_pct] else []) ++
          (if FX_INR_TOL < |inr_diff| then [inrReason |inr_diff|] else []))⟩
    else
      ⟨false, some markup_pct, some inr_diff, "OK", "Within thresholds"⟩

/-! ## fx_detector.py -/

/-- Python `\s` whitespace class on the characters used by the narrations. -/
def isWsChar (c : Char) : Bool :=
  c == ' ' || c == '\t' || c == '\n' || c == '\r' || c.toNat == 11 || c.toNat == 12

/-- Python regex `\w` word-character class (used for the `\b` word boundary). -/
def isWordChar (c : Char) : Bool := c.isAlpha || c.isDigit || c == '_'

/-- Skip a (possibly empty) run of whitespace, the regex `\s*`. -/
def skipWs (l : List Char) : List Char := l.dropWhile isWsChar

/-- Match a literal at the head of the character list and return the rest. -/
def lit (pat : String) (l : List Char) : Option (List Char) :=
  if pat.toList.isPrefixOf l then some (l.drop pat.length) else none

/-- Require at least one whitespace character, the regex `\s+`. -/
def skipWs1 : List Char → Option (List Char)
  | [] => none
  | c :: t => if isWsChar c then some (skipWs t) else none

/-- Regex `DYN\s*C(?:URR|URRENCY)` at the current position (as a Boolean
search, `URR` being a prefix of `URRENCY`, this is `DYN\s*CURR`). -/
def patDynCurr (l : List Char) : Bool :=
  match lit "DYN" l with
  | none => false
  | some rest => (lit "CURR" (skipWs rest)).isSome

/-- Regex `INR\s*@\s*POS` at the current position. -/
def patInrPos (l : List Char) : Bool :=
  match lit "INR" l with
  | none => false
  | some r1 =>
    match lit "@" (skipWs r1) with
    | none => false
    | some r2 => (lit "POS" (skipWs r2)).isSome

/-- Regex `CURRENCY\s+CONVERSION` at the current position. -/
def patCurrencyConv (l : List Char) : Bool :=
  match lit "CURRENCY" l with
  | none => false
  | some r1 =>
    match skipWs1 r1 with
    | none => false
    | some r2 => (lit "CONVERSION" r2).isSome

/-- Regex `CONV(?:ERSION)?\s+RATE` at the current position. -/
def patConvRate (l : List Char) : Bool :=
  (match lit "CONV" l with
   | none => false
   | some r1 =>
     match skipWs1 r1 with
     | none => false
     | some r2 => (lit "RATE" r2).isSome) ||
  (match lit "CONVERSION" l with
   | none => false
   | some r1 =>
     match skipWs1 r1 with
     | none => false
     | some r2 => (lit "RATE" r2).isSome)

/-- Regex `MERCHANT\s+CONVERSION` at the current position. -/
def patMerchantConv (l : List Char) : Bool :=
  match lit "MERCHANT" l with
  | none => false
  | some r1 =>
    match skipWs1 r1 with
    | none => false
    | some r2 => (lit "CONVERSION" r2).isSome

/-- Regex `DCC\b` at the current position (trailing word boundary). -/
def dccHere (l : List Char) : Bool :=
  match lit "DCC" l with
  | none => false
  | some rest =>
    match rest with
    | [] => true
    | c :: _ => !isWordChar c

/-- Leading word boundary `\b`: start of string or a non-word character. -/
def prevNonWord : Option Char → Bool
  | none => true
  | some c => !isWordChar c

/-- Scan for `\bDCC\b`, carrying the previous character for the boundary. -/
def scanDcc (prev : Option Char) : List Char → Bool
  | [] => false
  | c :: t => (prevNonWord prev && dccHere (c :: t)) || scanDcc (some c) t

/-- Regex search: try the position pattern at every suffix. -/
def scanPat (p : List Char → Bool) : List Char → Bool
  | [] => p []
  | c :: t => p (c :: t) || scanPat p t

/-- Case-insensitive matching is performed on the upper-cased characters. -/
def upperChars (s : String) : List Char := s.toList.map Char.toUpper

/-- `DCC_REGEX.search(narration)` as a Boolean: the alternation of the six
`DCC_PATTERNS` of fx_detector.py, compiled with `re.IGNORECASE`. -/
def dccRegexSearch (s : String) : Bool :=
  let u := upperChars s
  scanDcc none u || scanPat patDynCurr u || scanPat patInrPos u ||
    scanPat patCurrencyConv u || scanPat patConvRate u || scanPat patMerchantConv u

/-- `CCY_HINTS` of fx_detector.py, in dict insertion order. -/
def CCY_HINTS : List (String × String) :=
  [("USD", "USD"), (" US$", "USD"), ("$", "USD"), ("EUR", "EUR"), ("€", "EUR"),
   ("GBP", "GBP"), ("£", "GBP"), ("AED", "AED"), ("AUD", "AUD"), ("SGD", "SGD"),
   ("CAD", "CAD"), ("JPY", "JPY"), ("¥", "JPY")]

/-- `COUNTRY_TO_CCY` of fx_detector.py. -/
def COUNTRY_TO_CCY : List (String × String) :=
  [("US", "USD"), ("GB", "GBP"), ("AE", "AED"), ("AU", "AUD"), ("SG", "SGD"),
   ("CA", "CAD"), ("JP", "JPY"), ("DE", "EUR"), ("FR", "EUR"), ("NL", "EUR")]

/-- Python substring test `needle in hay` on character lists. -/
def listHasSub (needle : List Char) : List Char → Bool
  | [] => needle.isEmpty
  | c :: t => needle.isPrefixOf (c :: t) || listHasSub needle t

/-- `fx_detector._find_currency_in_text`. -/
def find_currency_in_text (text : String) : Option String :=
  if text == "" then none
  else
    (CCY_HINTS.find? fun hc =>
      listHasSub (hc.1.toLower.toList) (text.toLower.toList)).map Prod.snd

/-- `fx_detector._infer_from_country`. -/
def infer_from_country (iso_country : Option String) : Option String :=
  match iso_country with
  | none => none
  | some s => if s == "" then none else COUNTRY_TO_CCY.lookup s.toUpper

/-- `fx_detector.fx_confidence`: evidence-weighted confidence score.  The
error-term cut-offs are the literals 50 and 100 that appear in the source
(the module-level `FX_INR_TOL` read from config is never used here). -/
def fx_confidence (has_receipt has_country_hint : Bool)
    (abs_error_inr : Option ℚ) : ℚ :=
  let score : ℚ :=
    (if has_receipt then 1/2 else 0) +
    (if has_country_hint then 3/10 else 0) +
    (match abs_error_inr with
     | none => 0
     | some e => if e ≤ 50 then 1/5 else if e ≤ 100 then 1/10 else 0)
  min 1 (round2 score)

/-- Modelled from the spec: the receipt-path confidence score whose error-term
cut-offs track the configured local-currency tolerance — `+0.2` when the
absolute INR error is at most half the configured tolerance and `+0.1` when it
is at most the full tolerance (capped at 1.0).  This definition follows the
spec's words and is compared against `fx_confidence`, which is what the code
implements. -/
def fx_confidence_spec (tol : ℚ) (has_receipt has_country_hint : Bool)
    (abs_error_inr : Option ℚ) : ℚ :=
  let score : ℚ :=
    (if has_receipt then 1/2 else 0) +
    (if has_country_hint then 3/10 else 0) +
    (match abs_error_inr with
     | none => 0
     | some e => if e ≤ tol / 2 then 1/5 else if e ≤ tol then 1/10 else 0)
  min 1 (round2 score)

/-- `fx_detector.FXContext`. -/
structure FXContext where
  is_foreign : Bool
  is_dcc : Bool
  currency : Option String
  fx_source : Option String
  confidence : ℚ
  notes : Option String
deriving DecidableEq

/-- Python truthiness of an `Optional[str]`: `None` and `""` are falsy. -/
def strTruthy : Option String → Bool
  | none => false
  | some s => !(s == "")

/-- Python `o.upper()` applied after a truthiness guard. -/
def optUpper (o : Option String) : String := (o.getD "").toUpper

/-- `fx_detector.detect_fx_context`.  The `txn_ts` argument is dropped: the
source only normalizes its timezone and never uses it. -/
def detect_fx_context (narration : String)
    (merchant_country_iso2 stated_currency receipt_currency : Option String)
    (expected_inr charged_inr : Option ℚ) : FXContext :=
  if !(narration == "") && dccRegexSearch narration then
    ⟨false, true, some "INR", some "dcc", 1,
      some "DCC detected in narration; markup analysis bypassed."⟩
  else if strTruthy stated_currency && !(optUpper stated_currency == "INR") then
    ⟨true, false, some (optUpper stated_currency), some "statement", 9/10,
      some "Foreign currency explicitly present in statement."⟩
  else if strTruthy receipt_currency && !(optUpper receipt_currency == "INR") then
    let abs_err : Option ℚ :=
      match expected_inr, charged_inr with
      | some e, some ch => some |ch - e|
      | _, _ => none
    ⟨true, false, some (optUpper receipt_currency), some "receipt",
      fx_confidence true (strTruthy merchant_country_iso2) abs_err,
      some "Currency taken from attached receipt."⟩
  else
    let dflt : FXContext :=
      ⟨false, false, some "INR", none,
        (if !(narration == "") && listHasSub "INR".toList (narration.toUpper.toList)
         then 4/5 else 1/2),
        some "No reliable foreign markers; assumed INR."⟩
    let step4 : FXContext :=
      match infer_from_country merchant_country_iso2 with
      | some cy =>
        if cy == "INR" then dflt
        else
          ⟨true, false, some cy, some "inferred", fx_confidence false true none,
            some "Currency inferred from merchant country."⟩
      | none => dflt
    match find_currency_in_text narration with
    | some h =>
      if h == "INR" then step4
      else
        ⟨true, false, some h, some "inferred",
          fx_confidence false (strTruthy merchant_country_iso2) none,
          some "Currency inferred from narration hints."⟩
    | none => step4

/-! ## stripe_integrity_checker.py -/

/-- Threshold `SETTINGS["thresholds"]["amount_match_tolerance_inr"]` (default 10). -/
def AMT_TOL : ℚ := 10

/-- Threshold `SETTINGS["thresholds"]["date_window_days"]` (default 2). -/
def DATE_WIN_DAYS : ℤ := 2

/-- A normalized Stripe charge row (after `_norm_stripe`); `created` is the
calendar date of the `created` timestamp. -/
structure Charge where
  charge_id : String
  invoice_id : String
  email : String
  amount : ℚ
  created : ℤ
deriving DecidableEq

/-- A normalized RMS row (after `_norm_rms`); `posted_at` is the calendar date
of the posting timestamp. -/
structure RmsRow where
  rms_id : String
  invoice_no : String
  email : String
  amount_inr : ℚ
  posted_at : ℤ
deriving DecidableEq

/-- One row of the combined `matches` frame of `build_matches_and_flags`. -/
structure MatchRecord where
  charge_id : String
  invoice_no : String
  amount : ℚ
  created : ℤ
  rms : Option RmsRow
  match_type : String
deriving DecidableEq

/-- RMS rows joined to a charge by `_primary_match` (`invoice_id ↔ invoice_no`
merge). -/
def primaryHits (rms : List RmsRow) (c : Charge) : List RmsRow :=
  rms.filter fun r => r.invoice_no == c.invoice_id

/-- RMS rows with `match_ok` true in `_fallback_match` (lines 122-134): same
email, `|amount − amount_inr| ≤ AMT_TOL` and `|created − posted| ≤
DATE_WIN_DAYS`.  These columns are computed without raising; the column
access that _does_ raise (line 135) is modelled in `fallback_match` below. -/
def fallbackHits (rms : List RmsRow) (c : Charge) : List RmsRow :=
  rms.filter fun r =>
    r.email == c.email && decide (|c.amount - r.amount_inr| ≤ AMT_TOL)
      && decide (|c.created - r.posted_at| ≤ DATE_WIN_DAYS)

/-- A `match_type = 'primary'` row of the merged frame. -/
def mkPrimary (c : Charge) (r : RmsRow) : MatchRecord :=
  ⟨c.charge_id, c.invoice_id, c.amount, c.created, some r, "primary"⟩

/-- A `match_type = 'fallback'` row of the merged frame. -/
def mkFallback (c : Charge) (r : RmsRow) : MatchRecord :=
  ⟨c.charge_id, c.invoice_id, c.amount, c.created, some r, "fallback"⟩

/-- Concatenation of per-charge row lists, the row order of a pandas merge. -/
def concatMap (f : Charge → List MatchRecord) : List Charge → List MatchRecord
  | [] => []
  | c :: t => f c ++ concatMap f t

/-- Columns of the merged frame `m` inside `_fallback_match` when it is
called from `build_matches_and_flags` (line 150): the normalized Stripe
charge columns (line 71) plus `created_date`, the normalized RMS columns
(line 89) plus `posted_date` — `currency` appearing on both sides gets the
merge suffixes — and the helper columns added at lines 124-134.
`match_type` is not among them: that column exists only on the frame
produced by `_primary_match`, which is not what line 150 passes. -/
def FALLBACK_MERGE_COLS : List String :=
  ["charge_id", "payment_intent", "invoice_id", "email", "amount",
   "currency_st", "created", "status", "created_date",
   "rms_id", "invoice_no", "amount_inr", "currency_r", "posted_at",
   "posted_date", "amt_match", "date_match", "match_ok"]

/-- `_fallback_match`, made fallible: after computing the `match_ok` rows,
line 135 reads `m[match_type]`; when the merged frame (whose columns are
`cols`) lacks that column, pandas raises `KeyError` and the function never
returns.  Only with the column present would the `match_ok` rows be
returned (line 136). -/
def fallback_match (cols : List String) (charges : List Charge)
    (rms : List RmsRow) : Except String (List MatchRecord) :=
  if cols.contains "match_type" then
    Except.ok (concatMap (fun c => (fallbackHits rms c).map (mkFallback c)) charges)
  else
    Except.error "KeyError: match_type"

/-- The `matches` frame computation of `build_matches_and_flags`: the
`match_type = 'primary'` rows of the primary merge, followed by the result
of `_fallback_match` on the charges left unmatched by the primary merge —
called, at line 150, on the raw normalized charges frame, so with the
columns `FALLBACK_MERGE_COLS` inside.  An error from the fallback stage
propagates (the Python exception aborts the whole function before the
flags-assembly loop at lines 158-246 runs). -/
def build_matches_and_flags_matches (charges : List Charge) (rms : List RmsRow) :
    Except String (List MatchRecord) :=
  match fallback_match FALLBACK_MERGE_COLS
      (charges.filter fun c => (primaryHits rms c).isEmpty) rms with
  | Except.ok fb =>
    Except.ok (concatMap (fun c => (primaryHits rms c).map (mkPrimary c)) charges ++ fb)
  | Except.error e => Except.error e

/-- The `AmountMismatch` decision of the flags-assembly loop: a flag is
appended iff `not (pd.notna(amount) and pd.notna(amount_inr) and
abs(amount - amount_inr) <= AMT_TOL)`.  Both dataframe cells being numeric
here, a missing RMS side means the flag fires. -/
def amount_mismatch (m : MatchRecord) : Bool :=
  match m.rms with
  | none => true
  | some r => !(decide (|m.amount - r.amount_inr| ≤ AMT_TOL))

/-- Concrete charge used to evaluate the matcher at a failing input. -/
def exC4c : Charge := ⟨"ch_1", "INV-1", "a@x", 100, 0⟩

/-- Concrete RMS row matching `exC4c` by invoice, amounts differing by
exactly the tolerance. -/
def exC4r : RmsRow := ⟨"r1", "INV-1", "a@x", 110, 0⟩

/-! ## cc_monitor.py -/

/-- `SETTINGS.get("sla", {}).get("working_days", 3)` — the production config
exports no `sla` key, so the default 3 applies. -/
def SLA_WDAYS : ℕ := 3

/-- `cc_monitor.is_working_day`: `d.weekday() < 5 and d not in HOLIDAYS`.
Dates are day counts from a Monday epoch, so `d % 7` is `weekday()`. -/
def is_working_day (H : List ℤ) (d : ℤ) : Bool :=
  decide (d % 7 < 5) && !(H.any fun h => h == d)

/-- The `while added < days` loop of `cc_monitor.add_working_days`, with an
explicit fuel bounding the number of iterations; `none` means the fuel ran
out before `days` working days were accumulated. -/
def awdLoop (H : List ℤ) : ℕ → ℤ → ℕ → Option ℤ
  | _, cur, 0 => some cur
  | 0, _, _ + 1 => none
  | f + 1, cur, r + 1 =>
    if is_working_day H (cur + 1) then awdLoop H f (cur + 1) r
    else awdLoop H f (cur + 1) (r + 1)

/-- Number of working days in the window `(cur, cur + f]`. -/
def wcount (H : List ℤ) : ℤ → ℕ → ℕ
  | _, 0 => 0
  | cur, f + 1 => (if is_working_day H (cur + 1) then 1 else 0) + wcount H (cur + 1) f

/-- Upper bound of the holiday list and the start date. -/
def listMax (H : List ℤ) (s : ℤ) : ℤ := H.foldr max s

/-- Fuel sufficient for `awdLoop`: walk past every holiday, then at most seven
calendar days per remaining working day. -/
def fuelFor (H : List ℤ) (s : ℤ) (n : ℕ) : ℕ := (listMax H s - s).toNat + 7 * n

/-- `cc_monitor.add_working_days` (total: the fuel is provably sufficient,
see `add_working_days_total`). -/
def add_working_days (H : List ℤ) (s : ℤ) (n : ℕ) : ℤ :=
  (awdLoop H (fuelFor H s n) s n).getD s

/-- `sla_due_date` column of `classify_cc_rows`:
`add_working_days(txn_date, SLA_WDAYS)`. -/
def slaDueDate (H : List ℤ) (txn_date : ℤ) : ℤ := add_working_days H txn_date SLA_WDAYS

/-- `is_overdue` column of `classify_cc_rows`:
`entered_at.isna() & (today > sla_due_date)`. -/
def is_overdue (H : List ℤ) (entered_at : Option ℤ) (txn_date today : ℤ) : Bool :=
  entered_at.isNone && decide (slaDueDate H txn_date < today)

end Recon

namespace Recon

/-- C1 counterexample: with `is_dcc` true but the foreign amount missing,
`analyze_markup` returns status `SKIPPED`, not `BYPASS` — the missing-data
check runs before the DCC check, so the claim's "bypassed regardless of
whether the amounts are present" fails on the code. -/
theorem markup_dcc_missing_not_bypass :
    (analyze_markup none (some 100) (some 82) true).status = "SKIPPED" ∧
    (analyze_markup none (some 100) (some 82) true).status ≠ "BYPASS" := by decide

/-- C1 (amended): for every transaction whose FX context has `is_dcc` true
and whose foreign amount, charged amount and interbank rate are all present
and non-zero, `analyze_markup` returns exactly the bypassed result: status
`BYPASS`, not flagged, with `markup_pct` and `inr_diff` null.  (When an
input is missing or zero the missing-data check takes precedence and the
result is `SKIPPED` instead, see the counterexample.) -/
theorem markup_dcc_bypass (fa ci ir : Option ℚ)
    (h1 : qFalsy fa = false) (h2 : qFalsy ci = false) (h3 : qFalsy ir = false) :
    analyze_markup fa ci ir true =
      ⟨false, none, none, "BYPASS", "DCC transaction detected, markup check not applicable"⟩ := by
  simp [analyze_markup, h1, h2, h3]

/-- C1 witness: the amended theorem applied at foreign = 100,
charged = 8800, rate = 82. -/
theorem markup_dcc_bypass_witness :
    analyze_markup (some 100) (some 8800) (some 82) true =
      ⟨false, none, none, "BYPASS", "DCC transaction detected, markup check not applicable"⟩ :=
  markup_dcc_bypass (some 100) (some 8800) (some 82)
    (by norm_num [qFalsy]) (by norm_num [qFalsy]) (by norm_num [qFalsy])

/-- C6 counterexample: with foreign = 100, charged = 0, rate = 82 the
result is `SKIPPED`, yet none of the three inputs is absent and the foreign
amount is non-zero — a zero charged amount also skips, so "skipped iff some
input absent (with only zero foreign treated as missing)" fails. -/
theorem markup_zero_charged_cex :
    ¬ ((analyze_markup (some 100) (some 0) (some 82) false).status = "SKIPPED" →
        (some (100:ℚ) = none ∨ some (0:ℚ) = none ∨ some (82:ℚ) = none ∨ (100:ℚ) = 0)) := by
  decide

/-- C6 (amended): `analyze_markup` returns status `SKIPPED` if and only if
some input among foreign amount, charged amount and reference rate is absent
or zero (Python falsiness treats a zero charged amount and a zero rate as
missing too, not only a zero foreign amount); and every skipped result has
null `markup_pct`, null `inr_diff` and `is_flagged` false. -/
theorem markup_skipped_iff (fa ci ir : Option ℚ) (dcc : Bool) :
    ((analyze_markup fa ci ir dcc).status = "SKIPPED" ↔
      (qFalsy fa || qFalsy ci || qFalsy ir) = true) ∧
    ((analyze_markup fa ci ir dcc).status = "SKIPPED" →
      (analyze_markup fa ci ir dcc).markup_pct = none ∧
      (analyze_markup fa ci ir dcc).inr_diff = none ∧
      (analyze_markup fa ci ir dcc).is_flagged = false) := by
  constructor
  · simp only [analyze_markup]
    split_ifs with hg <;> simp_all
  · intro hs
    simp only [analyze_markup] at hs ⊢
    split_ifs at hs ⊢ with hg <;> simp_all

/-- C6 witness: the skipped-iff theorem applied with a missing charged
amount. -/
theorem markup_skipped_iff_witness :
    (analyze_markup (some 100) none (some 82) false).status = "SKIPPED" :=
  (markup_skipped_iff (some 100) none (some 82) false).1.mpr (by decide)

/-- C9: `analyze_markup` is total over its interface — whenever the charged
local amount or the interbank rate is zero (not only a zero foreign amount)
it returns a `SKIPPED` result with null numeric outputs and no flag, rather
than dividing by zero. -/
theorem markup_skip_on_zero (fa ci ir : Option ℚ) (dcc : Bool)
    (h : ci = some 0 ∨ ir = some 0) :
    (analyze_markup fa ci ir dcc).status = "SKIPPED" ∧
    (analyze_markup fa ci ir dcc).is_flagged = false ∧
    (analyze_markup fa ci ir dcc).markup_pct = none ∧
    (analyze_markup fa ci ir dcc).inr_diff = none := by
  rcases h with h | h <;> subst h <;> simp [analyze_markup, qFalsy]

/-- C9 witness: the zero-input theorem applied at charged = 0. -/
theorem markup_skip_on_zero_witness :
    (analyze_markup (some 100) (some 0) (some 82) false).status = "SKIPPED" :=
  (markup_skip_on_zero (some 100) (some 0) (some 82) false (Or.inl rfl)).1

/-- C3: with all numeric inputs present and non-zero and no DCC, the result
is flagged iff the (rounded) markup percentage exceeds the configured
percentage tolerance (2.5) or the absolute (rounded) INR deviation exceeds
the configured absolute tolerance (100); and when both thresholds are
breached the reason text cites both breaches, joined by "; ". -/
theorem markup_flag_iff (a c r : ℚ) (ha : a ≠ 0) (hc : c ≠ 0) (hr : r ≠ 0) :
    ((analyze_markup (some a) (some c) (some r) false).is_flagged = true ↔
      (FX_MARKUP_TOL < round2 ((c / a - r) / r * 100) ∨
        FX_INR_TOL < |round2 (c - a * r)|)) ∧
    (FX_MARKUP_TOL < round2 ((c / a - r) / r * 100) →
      FX_INR_TOL < |round2 (c - a * r)| →
      (analyze_markup (some a) (some c) (some r) false).reason =
        markupReason (round2 ((c / a - r) / r * 100)) ++ "; " ++
          inrReason |round2 (c - a * r)|) := by
  have hg : (qFalsy (some a) || qFalsy (some c) || qFalsy (some r)) = false := by
    simp [qFalsy, ha, hc, hr]
  constructor
  · unfold analyze_markup
    rw [hg]
    simp only [Bool.false_eq_true, if_false, Option.getD_some]
    split_ifs with h <;> simp [h]
  · intro hm hi
    unfold analyze_markup
    rw [hg]
    simp only [Bool.false_eq_true, if_false, Option.getD_some]
    rw [if_pos (Or.inl hm), if_pos hm, if_pos hi]
    simp [joinSemicolon]

/-- C3 witness: the spec scenario foreign = 100, charged = 8800, rate = 82
(deviation 600, markup ≈ 7.32 percent) is flagged and its reason cites both
breaches. -/
theorem markup_flag_iff_witness :
    (analyze_markup (some 100) (some 8800) (some 82) false).is_flagged = true ∧
    (analyze_markup (some 100) (some 8800) (some 82) false).reason =
      markupReason (round2 ((8800 / 100 - 82) / 82 * 100)) ++ "; " ++
        inrReason |round2 ((8800:ℚ) - 100 * 82)| :=
  ⟨(markup_flag_iff 100 8800 82 (by norm_num) (by norm_num) (by norm_num)).1.mpr
      (Or.inl (by norm_num [round2, roundHalfEven, Int.floor_eq_iff, FX_MARKUP_TOL])),
   (markup_flag_iff 100 8800 82 (by norm_num) (by norm_num) (by norm_num)).2
      (by norm_num [round2, roundHalfEven, Int.floor_eq_iff, FX_MARKUP_TOL])
      (by norm_num [round2, roundHalfEven, Int.floor_eq_iff, FX_INR_TOL])⟩

end Recon

namespace Recon

/-- C5: for every narration matched by the DCC marker regex
(case-insensitive), `detect_fx_context` returns `is_dcc` true, `is_foreign`
false, currency INR (the local currency), source `dcc` and confidence 1.0,
regardless of any stated currency, receipt currency, merchant country or
INR amounts also present — the DCC branch is first in the precedence
order. -/
theorem detect_dcc_precedence (narration : String)
    (mc sc rc : Option String) (ei ci : Option ℚ)
    (h : dccRegexSearch narration = true) :
    detect_fx_context narration mc sc rc ei ci =
      ⟨false, true, some "INR", some "dcc", 1,
        some "DCC detected in narration; markup analysis bypassed."⟩ := by
  have hne : (narration == "") = false := by
    cases he : narration == ""
    · rfl
    · exfalso
      have hn : narration = "" := by simpa using he
      rw [hn] at h
      exact absurd h (by decide)
  unfold detect_fx_context
  rw [hne, h]
  rfl

/-- C5 witness: narration "AMZN US * DYN CURR" with merchant country US
and a stated currency USD still classifies as DCC. -/
theorem detect_dcc_precedence_witness :
    detect_fx_context "AMZN US * DYN CURR" (some "US") (some "USD") (some "EUR")
        (some 100) (some 200) =
      ⟨false, true, some "INR", some "dcc", 1,
        some "DCC detected in narration; markup analysis bypassed."⟩ :=
  detect_dcc_precedence "AMZN US * DYN CURR" (some "US") (some "USD") (some "EUR")
    (some 100) (some 200) (by decide)

/-- C7: the error-term cut-offs of the receipt-path confidence score are
the hardcoded literals 50 and 100, not half/full of the configured
local-currency tolerance as the spec states: with tolerance 200 and an
absolute error of 80 the code scores 0.6 while the spec-modelled scorer
gives 0.7.  This contradicts fx_detector's own module docstring
("Config-driven thresholds via production_config.SETTINGS (no magic
numbers)") and its loaded-but-unused `FX_INR_TOL`. -/
theorem fx_confidence_hardcoded_cutoffs :
    fx_confidence true false (some 80) = 3/5 ∧
    fx_confidence_spec 200 true false (some 80) = 7/10 ∧
    fx_confidence true false (some 80) ≠ fx_confidence_spec 200 true false (some 80) := by
  refine ⟨?_, ?_, ?_⟩ <;>
    norm_num [fx_confidence, fx_confidence_spec, round2, roundHalfEven, Int.floor_eq_iff]

end Recon

namespace Recon

/-- C2: the matcher never emits its matches output at all — for every input
batch, `build_matches_and_flags` raises `KeyError` at
stripe_integrity_checker.py line 135, because `_fallback_match` reads the
`match_type` column on a merged frame that does not have one (the call at
line 150 passes the raw normalized charges, not the `_primary_match`
result).  So no source charge ever appears in any MatchRecord, and the
claimed best-candidate resolution (smallest amount delta, then date delta)
does not exist anywhere in the code. -/
theorem build_matches_always_keyerror (charges : List Charge) (rms : List RmsRow) :
    build_matches_and_flags_matches charges rms = Except.error "KeyError: match_type" := rfl

/-- C4: the `AmountMismatch` assembly (lines 215-227) is dead code — at the
concrete one-charge/one-RMS failing input (amounts differing by exactly the
tolerance) the matcher errors with `KeyError` before the flags loop runs,
so no flag frame is ever produced.  The per-row decision at line 218 that
the loop would apply does implement the claim exactly: the flag fires iff
the absolute amount difference strictly exceeds the tolerance, and a pair
exactly at the tolerance is not flagged. -/
theorem amount_mismatch_unreachable (m : MatchRecord) (r : RmsRow)
    (hr : m.rms = some r) :
    build_matches_and_flags_matches [exC4c] [exC4r] = Except.error "KeyError: match_type" ∧
    (amount_mismatch m = true ↔ AMT_TOL < |m.amount - r.amount_inr|) ∧
    (|m.amount - r.amount_inr| = AMT_TOL → amount_mismatch m = false) := by
  refine ⟨rfl, ?_, ?_⟩
  · simp [amount_mismatch, hr, not_le]
  · intro he
    simp [amount_mismatch, hr, he]

/-- C4 witness: the dead-code decision applied to a primary-style pair with
difference exactly equal to the tolerance (|100 − 110| = 10) is not
flagged. -/
theorem amount_mismatch_unreachable_witness :
    amount_mismatch (mkPrimary exC4c exC4r) = false :=
  (amount_mismatch_unreachable (mkPrimary exC4c exC4r) exC4r rfl).2.2
    (by norm_num [mkPrimary, exC4c, exC4r, AMT_TOL])

end Recon

namespace Recon

lemma awdLoop_zero (H : List ℤ) (f : ℕ) (cur : ℤ) : awdLoop H f cur 0 = some cur := by
  cases f <;> rfl

lemma awdLoop_succ (H : List ℤ) (f : ℕ) (cur : ℤ) (r : ℕ) :
    awdLoop H (f + 1) cur (r + 1) =
      if is_working_day H (cur + 1) then awdLoop H f (cur + 1) r
      else awdLoop H f (cur + 1) (r + 1) := rfl

lemma awdLoop_le (H : List ℤ) :
    ∀ (f : ℕ) (cur : ℤ) (r : ℕ) (t : ℤ), awdLoop H f cur r = some t →
      cur ≤ t ∧ (0 < r → cur < t) := by
  intro f
  induction f with
  | zero =>
    intro cur r t h
    cases r with
    | zero => rw [awdLoop_zero] at h; cases h; omega
    | succ r => cases h
  | succ f ih =>
    intro cur r t h
    cases r with
    | zero => rw [awdLoop_zero] at h; cases h; omega
    | succ r =>
      rw [awdLoop_succ] at h
      by_cases hw : is_working_day H (cur + 1) = true
      · rw [if_pos hw] at h
        have := ih (cur + 1) r t h
        omega
      · rw [if_neg hw] at h
        have := ih (cur + 1) (r + 1) t h
        omega

lemma awdLoop_mono (H : List ℤ) :
    ∀ (f f' : ℕ) (cur : ℤ) (r : ℕ) (t : ℤ),
      awdLoop H f cur r = some t → f ≤ f' → awdLoop H f' cur r = some t := by
  intro f
  induction f with
  | zero =>
    intro f' cur r t h _
    cases r with
    | zero => rw [awdLoop_zero] at h ⊢; exact h
    | succ r => cases h
  | succ f ih =>
    intro f' cur r t h hle
    cases r with
    | zero => rw [awdLoop_zero] at h ⊢; exact h
    | succ r =>
      obtain ⟨f'', rfl⟩ : ∃ f'', f' = f'' + 1 := ⟨f' - 1, by omega⟩
      rw [awdLoop_succ] at h ⊢
      by_cases hw : is_working_day H (cur + 1) = true
      · rw [if_pos hw] at h ⊢
        exact ih f'' (cur + 1) r t h (by omega)
      · rw [if_neg hw] at h ⊢
        exact ih f'' (cur + 1) (r + 1) t h (by omega)

lemma awdLoop_of_wcount (H : List ℤ) :
    ∀ (f : ℕ) (cur : ℤ) (r : ℕ), r ≤ wcount H cur f →
      ∃ t, awdLoop H f cur r = some t := by
  intro f
  induction f with
  | zero =>
    intro cur r hr
    simp only [wcount, Nat.le_zero] at hr
    subst hr
    exact ⟨cur, awdLoop_zero H 0 cur⟩
  | succ f ih =>
    intro cur r hr
    cases r with
    | zero => exact ⟨cur, awdLoop_zero H (f + 1) cur⟩
    | succ r =>
      rw [awdLoop_succ]
      by_cases hw : is_working_day H (cur + 1) = true
      · rw [if_pos hw]
        apply ih
        simp only [wcount, hw, if_true] at hr
        omega
      · rw [if_neg hw]
        apply ih
        simp only [wcount, hw, Bool.false_eq_true, if_false] at hr
        omega

lemma wcount_add (H : List ℤ) :
    ∀ (a b : ℕ) (cur : ℤ),
      wcount H cur (a + b) = wcount H cur a + wcount H (cur + a) b := by
  intro a
  induction a with
  | zero => intro b cur; simp [wcount]
  | succ a ih =>
    intro b cur
    have h1 : a + 1 + b = (a + b) + 1 := by omega
    rw [h1]
    show wcount H cur ((a + b) + 1) = wcount H cur (a + 1) + wcount H (cur + (a + 1 : ℕ)) b
    simp only [wcount]
    rw [ih b (cur + 1)]
    have h2 : cur + 1 + (a : ℤ) = cur + ((a : ℕ) + 1 : ℕ) := by push_cast; ring
    rw [← h2]
    omega

lemma wcount_pos (H : List ℤ) :
    ∀ (f : ℕ) (cur : ℤ), (∃ j : ℕ, 1 ≤ j ∧ j ≤ f ∧ is_working_day H (cur + j) = true) →
      1 ≤ wcount H cur f := by
  intro f
  induction f with
  | zero =>
    intro cur ⟨j, h1, h2, _⟩
    omega
  | succ f ih =>
    intro cur ⟨j, h1, h2, hw⟩
    by_cases hj : j = 1
    · subst hj
      have h1' : cur + ((1 : ℕ) : ℤ) = cur + 1 := by omega
      rw [h1'] at hw
      simp [wcount, hw]
    · have hcast : cur + (j : ℤ) = (cur + 1) + ((j - 1 : ℕ) : ℤ) := by omega
      rw [hcast] at hw
      have := ih (cur + 1) ⟨j - 1, by omega, by omega, hw⟩
      simp only [wcount]
      omega

lemma listMax_le (H : List ℤ) (s : ℤ) : s ≤ listMax H s := by
  induction H with
  | nil => exact le_refl s
  | cons a t ih =>
    simp only [listMax, List.foldr_cons] at ih ⊢
    exact le_trans ih (le_max_right a _)

lemma mem_le_listMax (H : List ℤ) (s : ℤ) : ∀ h ∈ H, h ≤ listMax H s := by
  induction H with
  | nil => intro h hh; cases hh
  | cons a t ih =>
    intro h hh
    simp only [listMax, List.foldr_cons]
    rcases List.mem_cons.mp hh with rfl | hh
    · exact le_max_left h _
    · exact le_trans (ih h hh) (le_max_right a _)

lemma holiday_free_working (H : List ℤ) (M : ℤ) (hM : ∀ h ∈ H, h ≤ M)
    (d : ℤ) (hd : M < d) (hmod : d % 7 < 5) : is_working_day H d = true := by
  have hcont : (H.any fun h => h == d) = false := by
    rw [List.any_eq_false]
    intro h hh
    have := hM h hh
    simp only [beq_iff_eq]
    omega
  simp [is_working_day, hcont, hmod]

lemma wcount_ge (H : List ℤ) (M : ℤ) (hM : ∀ h ∈ H, h ≤ M) :
    ∀ (n : ℕ) (cur : ℤ), M ≤ cur → n ≤ wcount H cur (7 * n) := by
  intro n
  induction n with
  | zero => intro cur _; omega
  | succ n ih =>
    intro cur hcur
    have h7 : 7 * (n + 1) = 7 + 7 * n := by ring
    rw [h7, wcount_add]
    have hone : 1 ≤ wcount H cur 7 := by
      apply wcount_pos
      refine ⟨(7 - cur % 7).toNat, by omega, by omega, ?_⟩
      apply holiday_free_working H M hM
      · omega
      · omega
    have hrest : n ≤ wcount H (cur + (7 : ℕ)) (7 * n) := by
      apply ih
      push_cast
      omega
    omega

lemma wcount_fuelFor (H : List ℤ) (s : ℤ) (n : ℕ) :
    n ≤ wcount H s (fuelFor H s n) := by
  have hmax := listMax_le H s
  have hD : (((listMax H s - s).toNat : ℤ)) = listMax H s - s := by omega
  rw [fuelFor, wcount_add]
  have h2 : s + (((listMax H s - s).toNat : ℕ) : ℤ) = listMax H s := by omega
  rw [h2]
  have h3 := wcount_ge H (listMax H s) (mem_le_listMax H s) n (listMax H s) le_rfl
  omega

/-- C10: `add_working_days` terminates for every start date, every
non-negative working-day count and every finite holiday list — the loop
reaches its result within the computed fuel, every larger fuel returns the
same result, and the result is strictly after the start date whenever the
count is positive; hence every SLA due date of `classify_cc_rows` is
well-defined. -/
theorem add_working_days_total (H : List ℤ) (s : ℤ) (n : ℕ) :
    awdLoop H (fuelFor H s n) s n = some (add_working_days H s n) ∧
    (∀ f : ℕ, fuelFor H s n ≤ f → awdLoop H f s n = some (add_working_days H s n)) ∧
    (0 < n → s < add_working_days H s n) := by
  obtain ⟨t, ht⟩ := awdLoop_of_wcount H (fuelFor H s n) s n (wcount_fuelFor H s n)
  have hval : add_working_days H s n = t := by
    rw [add_working_days, ht]
    rfl
  refine ⟨by rw [hval]; exact ht, ?_, ?_⟩
  · intro f hf
    rw [hval]
    exact awdLoop_mono H (fuelFor H s n) f s n t ht hf
  · intro hn
    rw [hval]
    exact (awdLoop_le H (fuelFor H s n) s n t ht).2 hn

/-- C10 witness: starting Monday (day 0) with a holiday on day 2, three
working days land strictly after the start, and a larger fuel (60) agrees
with the computed fuel. -/
theorem add_working_days_total_witness :
    awdLoop [2] (fuelFor [2] 0 3) 0 3 = some (add_working_days [2] 0 3) ∧
    awdLoop [2] 60 0 3 = some (add_working_days [2] 0 3) ∧
    0 < add_working_days [2] 0 3 :=
  ⟨(add_working_days_total [2] 0 3).1,
   (add_working_days_total [2] 0 3).2.1 60 (by decide),
   (add_working_days_total [2] 0 3).2.2 (by decide)⟩

/-- C8: for a credit-card transaction with no entry timestamp,
`is_overdue` holds iff today is strictly after the SLA due date
(transaction date plus the configured working days); evaluated exactly on
the due date it is not overdue, and one day later it is. -/
theorem sla_overdue_boundary (H : List ℤ) (txn today : ℤ) :
    (is_overdue H none txn today = true ↔ slaDueDate H txn < today) ∧
    is_overdue H none txn (slaDueDate H txn) = false ∧
    is_overdue H none txn (slaDueDate H txn + 1) = true := by
  refine ⟨?_, ?_, ?_⟩ <;> simp [is_overdue]

end Recon
